import Mathlib

/-!
Verification of the TIti chat server against its specification.

Shallow embedding of the server's C sources (protocol/parser.c,
protocol/builder.c, protocol/command_dandler.c, core/connection_manager.c,
core/session_manager.c, storage/user_store.c, message_router.c).
Strings are modelled as `List Char`; the in-memory linked lists of users and
clients are modelled as Lean lists (head insertion, first-match search, exactly
as the C traversals do).  Wall-clock timestamps and the global message-id
counter are passed as explicit parameters.  Socket writes are modelled by an
oracle `sendOk : Int → Bool` saying which descriptors accept a full write;
routing functions also return the list of `send` calls they perform
(descriptor together with payload).

Buffer capacities follow the structs in models.h (`MAX_USERNAME_LEN` 32,
`MAX_PASSWORD_LEN` 32, `MAX_CONTENT_LEN` 256, type tag 16, timestamp 32):
`safe_strcpy dest src size` keeps at most `size - 1` characters, which the
embedding renders as `List.take (size - 1)`.

The numeric error codes (`ERROR_AUTH_FAILED` etc.) and the
`CLIENT_STATUS_*` constants are used by the C sources but their defining
header is not part of the tree; their values are modelled from the spec
(0 success, 1001 auth, 1002 not-found, 1003 offline, 1004 group-full,
5000 server).
-/

/-! ## String material -/

/-- Characters of a string literal, the `List Char` view used everywhere. -/
def str (s : String) : List Char := s.data

def MSG_TYPE_LOGIN : List Char := "LOGIN".data
def MSG_TYPE_LOGOUT : List Char := "LOGOUT".data
def MSG_TYPE_MSG : List Char := "MSG".data
def MSG_TYPE_BROADCAST : List Char := "BROADCAST".data
def MSG_TYPE_GROUP : List Char := "GROUP".data
def MSG_TYPE_HISTORY : List Char := "HISTORY".data
def MSG_TYPE_STATUS : List Char := "STATUS".data
def MSG_TYPE_ERROR : List Char := "ERROR".data
def MSG_TYPE_OK : List Char := "OK".data

def RECEIVER_BROADCAST : List Char := "*".data

/-- `RECEIVER_GROUP_PREFIX` of models.h (the name is shortened here). -/
def receiverGroupPre : List Char := "group:".data

/-- `ERROR_AUTH_FAILED`. Modelled from the spec: the defining header is missing
from the tree; the spec fixes 1001 for authentication failures. -/
def ERROR_AUTH_FAILED : Int := 1001

/-- `ERROR_USER_NOT_FOUND`. Modelled from the spec: 1002, user not found. -/
def ERROR_USER_NOT_FOUND : Int := 1002

/-- `ERROR_USER_OFFLINE`. Modelled from the spec: 1003, user offline. -/
def ERROR_USER_OFFLINE : Int := 1003

/-- `ERROR_SERVER_ERROR`. Modelled from the spec: 5000, server error. -/
def ERROR_SERVER_ERROR : Int := 5000

/-- `RESPONSE_SUCCESS`. Modelled from the spec: 0 means success. -/
def RESPONSE_SUCCESS : Int := 0

/-- `FIELD_COUNT` of protocol.h. -/
def FIELD_COUNT : Nat := 5

/-! ## Codec (protocol/parser.c) -/

/-- `escape_field` of parser.c: `|` becomes `\|`, `\` becomes `\\`, newline
becomes `\n` (backslash followed by the letter n); all else is copied. -/
def escape_field : List Char → List Char
  | [] => []
  | c :: rest =>
    if c = '|' then '\\' :: '|' :: escape_field rest
    else if c = '\\' then '\\' :: '\\' :: escape_field rest
    else if c = '\n' then '\\' :: 'n' :: escape_field rest
    else c :: escape_field rest

/-- `unescape_field` of parser.c: `\|`, `\\`, `\n` decode to `|`, `\`, newline;
a backslash before any other character is kept and the following character is
then processed on its own; a trailing lone backslash is kept. -/
def unescape_field : List Char → List Char
  | [] => []
  | [c] => [c]
  | c :: d :: rest =>
    if c = '\\' then
      if d = '|' then '|' :: unescape_field rest
      else if d = '\\' then '\\' :: unescape_field rest
      else if d = 'n' then '\n' :: unescape_field rest
      else '\\' :: unescape_field (d :: rest)
    else c :: unescape_field (d :: rest)

/-- The delimiter count of `validate_message`: a `|` counts when the run of
backslashes immediately before it has even length.  `bs` carries the length of
the backslash run ending just before the current character. -/
def count_unescaped_delims : List Char → Nat → Nat
  | [], _ => 0
  | c :: rest, bs =>
    (if c = '|' ∧ bs % 2 = 0 then 1 else 0)
      + count_unescaped_delims rest (if c = '\\' then bs + 1 else 0)

/-- Length of the run of backslashes ending the string (the trailing-escape
check of `validate_message`). -/
def trailing_backslashes (s : List Char) : Nat :=
  (s.reverse.takeWhile (fun c => c = '\\')).length

/-- `validate_message` of parser.c: rejects strings shorter than 5 or longer
than 1024 bytes, with fewer than `FIELD_COUNT - 1` unescaped delimiters, or
ending in an odd run of backslashes. -/
def validate_message (raw : List Char) : Bool :=
  if raw.length < 5 then false
  else if raw.length > 1024 then false
  else if count_unescaped_delims raw 0 < FIELD_COUNT - 1 then false
  else if raw.getLast? = some '\\' ∧ trailing_backslashes raw % 2 = 1 then false
  else true

/-- The field-splitting loop of `parse_message`: scan the characters carrying
the current backslash-run length `bs` and the number of splits made `n`; split
at an unescaped `|` only while fewer than `FIELD_COUNT - 1` splits were made,
every later delimiter stays inside the final (content) field. -/
def split_fields : List Char → Nat → Nat → List (List Char)
  | [], _, _ => [[]]
  | c :: rest, bs, n =>
    if c = '|' ∧ bs % 2 = 0 ∧ n < FIELD_COUNT - 1 then
      [] :: split_fields rest 0 (n + 1)
    else
      match split_fields rest (if c = '\\' then bs + 1 else 0) n with
      | [] => [[c]]
      | f :: fs => (c :: f) :: fs

/-- The merge step of `parse_message`: surplus fields are rejoined with `|`
into the content (with at most four splits this list always has exactly one
element, so the merge is the identity on it). -/
def merge_fields : List (List Char) → List Char
  | [] => []
  | [f] => f
  | f :: rest => f ++ '|' :: merge_fields rest

/-- `is_valid_msg_type` of parser.c. -/
def is_valid_msg_type (t : List Char) : Bool :=
  t = MSG_TYPE_LOGIN ∨ t = MSG_TYPE_LOGOUT ∨ t = MSG_TYPE_MSG ∨
  t = MSG_TYPE_BROADCAST ∨ t = MSG_TYPE_GROUP ∨ t = MSG_TYPE_HISTORY ∨
  t = MSG_TYPE_STATUS ∨ t = MSG_TYPE_ERROR ∨ t = MSG_TYPE_OK

/-- `is_valid_username` of parser.c: nonempty, at most `MAX_USERNAME_LEN - 1`
characters, all alphanumeric or underscore. -/
def is_valid_username (u : List Char) : Bool :=
  1 ≤ u.length ∧ u.length ≤ 31 ∧
  u.all (fun c => c.isAlphanum ∨ c = '_')

/-- A parsed record (the `Message` struct used by parser.c: type tag, sender,
receiver, timestamp, content, message id, delivered flag; the intrusive list
pointers are dropped). -/
structure Msg where
  type : List Char
  sender : List Char
  receiver : List Char
  timestamp : List Char
  content : List Char
  message_id : Nat
  is_delivered : Bool
deriving DecidableEq

/-- The newline stripping at the head of `parse_message`. -/
def strip_trailing_nl (s : List Char) : List Char :=
  if s.getLast? = some '\n' then s.dropLast else s

/-- `parse_message` of parser.c.  `next_id` stands for the value drawn from
the atomic message-id counter and `now` for `get_current_timestamp()`.
Validates, strips one trailing newline, splits at the first four unescaped
delimiters (later ones stay in content), unescapes each field, copies it into
the struct through `safe_strcpy` (hence the `take` capacities), rejects an
empty or unknown type, and fills an empty timestamp with the clock. -/
def parse_message (next_id : Nat) (now : List Char) (raw : List Char) :
    Option Msg :=
  if raw = [] then none
  else if ¬ validate_message raw then none
  else
    let fields := split_fields (strip_trailing_nl raw) 0 0
    if fields.length < FIELD_COUNT then none
    else
      match fields with
      | f0 :: f1 :: f2 :: f3 :: rest =>
        let ty := (unescape_field f0).take 15
        let se := (unescape_field f1).take 31
        let re := (unescape_field f2).take 31
        let ts := (unescape_field f3).take 31
        let co := (unescape_field (merge_fields rest)).take 255
        if ty = [] then none
        else if ¬ is_valid_msg_type ty then none
        else some { type := ty, sender := se, receiver := re,
                    timestamp := if ts = [] then now else ts,
                    content := co, message_id := next_id,
                    is_delivered := false }
      | _ => none

/-- `serialize_message` of parser.c: fails on an empty type, otherwise escapes
every field and joins them with `|`, appending a newline. -/
def serialize_message (m : Msg) : Option (List Char) :=
  if m.type = [] then none
  else some (escape_field m.type ++ '|' :: escape_field m.sender ++
             '|' :: escape_field m.receiver ++ '|' :: escape_field m.timestamp ++
             '|' :: escape_field m.content ++ ['\n'])

/-- `is_login_msg` of parser.c. -/
def is_login_msg (m : Msg) : Bool := m.type = MSG_TYPE_LOGIN

/-- `is_logout_msg` of parser.c. -/
def is_logout_msg (m : Msg) : Bool := m.type = MSG_TYPE_LOGOUT

/-- `is_private_msg` of parser.c: type MSG, receiver neither the broadcast
star nor a group target. -/
def is_private_msg (m : Msg) : Bool :=
  m.type = MSG_TYPE_MSG ∧ m.receiver ≠ RECEIVER_BROADCAST ∧
  ¬ receiverGroupPre.isPrefixOf m.receiver

/-- `is_broadcast_msg` of parser.c. -/
def is_broadcast_msg (m : Msg) : Bool := m.type = MSG_TYPE_BROADCAST

/-- `is_history_request` of parser.c. -/
def is_history_request (m : Msg) : Bool := m.type = MSG_TYPE_HISTORY

/-- `is_status_request` of parser.c. -/
def is_status_request (m : Msg) : Bool := m.type = MSG_TYPE_STATUS

/-! ### Codec sanity examples (concrete) -/

example : validate_message (str "LOGIN|alice|server|x|pw") = true := by decide

example :
    parse_message 100 (str "now") (str "MSG|alice|bob|ts|hi there")
      = some { type := str "MSG", sender := str "alice", receiver := str "bob",
               timestamp := str "ts", content := str "hi there",
               message_id := 100, is_delivered := false } := by decide

/-! ## Credential store (storage/user_store.c) -/

/-- The `User` struct of models.h (registration instant dropped). -/
structure UserRec where
  username : List Char
  password : List Char
  user_id : Nat
  is_active : Bool
deriving DecidableEq

/-- The user list together with the `user_id_counter` of user_store.c. -/
structure UserStore where
  users : List UserRec
  next_user_id : Nat
deriving DecidableEq

/-- `user_store_find_by_username`: first match walking the list. -/
def user_store_find_by_username (st : UserStore) (u : List Char) :
    Option UserRec :=
  st.users.find? (fun x => x.username = u)

/-- `create_user` of user_store.c: copies name and password through
`safe_strcpy` into 32-byte buffers, draws a fresh id, marks active. -/
def create_user (st : UserStore) (name pw : List Char) : UserRec :=
  { username := name.take 31, password := pw.take 31,
    user_id := st.next_user_id, is_active := true }

/-- `user_store_add`: fails (0) when the name is already present, otherwise
inserts the new user at the head of the list and succeeds (1). -/
def user_store_add (st : UserStore) (name pw : List Char) : Int × UserStore :=
  if (user_store_find_by_username st name).isSome then (0, st)
  else (1, { users := create_user st name pw :: st.users,
             next_user_id := st.next_user_id + 1 })

/-- `user_store_authenticate`: the user exists, is active, and the stored
password equals the supplied one byte for byte. -/
def user_store_authenticate (st : UserStore) (name pw : List Char) : Bool :=
  match user_store_find_by_username st name with
  | none => false
  | some u => u.is_active ∧ u.password = pw

/-- `user_store_count`. -/
def user_store_count (st : UserStore) : Nat := st.users.length

/-- `user_store_init_defaults`: admin, alice, bob, charlie on an empty store
whose id counter starts at 1000. -/
def user_store_init_defaults : UserStore :=
  let s0 : UserStore := { users := [], next_user_id := 1000 }
  let s1 := (user_store_add s0 (str "admin") (str "admin123")).2
  let s2 := (user_store_add s1 (str "alice") (str "alice123")).2
  let s3 := (user_store_add s2 (str "bob") (str "bob123")).2
  (user_store_add s3 (str "charlie") (str "charlie123")).2

/-! ## Connection registry (core/connection_manager.c) -/

/-- Client status values (`CLIENT_OFFLINE` / `CLIENT_CONNECTED` /
`CLIENT_AUTHENTICATED` of models.h). -/
inductive ClientStatus where
  | offline
  | connected
  | authenticated
deriving DecidableEq

/-- The `Client` struct: socket descriptor, registry id, bound user id and
username, status, remote endpoint (timestamps dropped). -/
structure Client where
  sockfd : Int
  client_id : Nat
  user_id : Int
  username : List Char
  status : ClientStatus
  remote_ip : List Char
  remote_port : Int
deriving DecidableEq

/-- The client list together with the `next_client_id` counter of
connection_manager.c (the head of the list is the most recent insertion). -/
structure Registry where
  clients : List Client
  next_client_id : Nat
deriving DecidableEq

/-- `connection_manager_find_by_fd`: first client with the descriptor. -/
def connection_manager_find_by_fd (r : Registry) (fd : Int) : Option Client :=
  r.clients.find? (fun c => c.sockfd = fd)

/-- `connection_manager_find_by_username`: first client whose (NUL-bounded)
username equals the argument. -/
def connection_manager_find_by_username (r : Registry) (u : List Char) :
    Option Client :=
  r.clients.find? (fun c => c.username = u)

/-- `connection_manager_add_from_fd`: no-op on a duplicate descriptor,
otherwise a fresh Connected entry is pushed at the head. -/
def connection_manager_add_from_fd (r : Registry) (fd : Int)
    (ip : List Char) (port : Int) : Registry :=
  if (connection_manager_find_by_fd r fd).isSome then r
  else
    { clients := { sockfd := fd, client_id := r.next_client_id, user_id := -1,
                   username := [], status := ClientStatus.connected,
                   remote_ip := ip.take 15, remote_port := port } :: r.clients,
      next_client_id := r.next_client_id + 1 }

/-- `connection_manager_remove`: drops the first entry with the descriptor. -/
def connection_manager_remove (r : Registry) (fd : Int) : Registry :=
  { r with clients := r.clients.eraseP (fun c => c.sockfd = fd) }

/-- `connection_manager_count`. -/
def connection_manager_count (r : Registry) : Nat := r.clients.length

/-- The mutation pattern shared by `set_auth`, `set_status` and the logout
field writes: rewrite the first client matching `p` with `f`. -/
def update_first (p : Client → Bool) (f : Client → Client) :
    List Client → List Client
  | [] => []
  | c :: rest => if p c then f c :: rest else c :: update_first p f rest

/-- `connection_manager_set_auth`: bind user id and (truncated) username to
the client with the descriptor and mark it Authenticated; -1 when absent. -/
def connection_manager_set_auth (r : Registry) (fd : Int) (uid : Int)
    (name : List Char) : Int × Registry :=
  if (connection_manager_find_by_fd r fd).isSome then
    let upd := fun c =>
      { c with user_id := uid, username := name.take 31, status := ClientStatus.authenticated }
    (0, { r with clients := update_first (fun c => c.sockfd = fd) upd r.clients })
  else (-1, r)

/-- `connection_manager_set_status`. -/
def connection_manager_set_status (r : Registry) (fd : Int)
    (s : ClientStatus) : Registry :=
  let upd := fun c => { c with status := s }
  { r with clients := update_first (fun c => c.sockfd = fd) upd r.clients }

/-- `connection_manager_get_all`: the registry snapshot, head first. -/
def connection_manager_get_all (r : Registry) : List Client := r.clients

/-! ## Session manager (core/session_manager.c) -/

/-- Server-side mutable state touched by the session layer. -/
structure ServerState where
  registry : Registry
  store : UserStore
deriving DecidableEq

/-- `session_manager_authenticate`: 0 with the state unchanged when the client
is unknown, the credentials fail, or the user vanished; 1 without any rebinding
when the client is already Authenticated (whatever name is asked for); 1 after
`connection_manager_set_auth` otherwise. -/
def session_manager_authenticate (st : ServerState) (fd : Int)
    (name pw : List Char) : Int × ServerState :=
  match connection_manager_find_by_fd st.registry fd with
  | none => (0, st)
  | some c =>
    if c.status = ClientStatus.authenticated then (1, st)
    else if ¬ user_store_authenticate st.store name pw then (0, st)
    else
      match user_store_find_by_username st.store name with
      | none => (0, st)
      | some u =>
        (1, { st with registry :=
              (connection_manager_set_auth st.registry fd
                (Int.ofNat u.user_id) name).2 })

/-- `session_manager_logout`: clears the binding and returns the client to
Connected, a no-op when the client is absent or not Authenticated. -/
def session_manager_logout (st : ServerState) (fd : Int) : ServerState :=
  match connection_manager_find_by_fd st.registry fd with
  | none => st
  | some c =>
    if c.status ≠ ClientStatus.authenticated then st
    else
      let upd := fun x =>
        { x with user_id := (-1 : Int), username := ([] : List Char), status := ClientStatus.connected }
      let cl := update_first (fun x => x.sockfd = fd) upd st.registry.clients
      { st with registry := { st.registry with clients := cl } }

/-- `session_manager_is_authenticated`. -/
def session_manager_is_authenticated (st : ServerState) (fd : Int) : Bool :=
  match connection_manager_find_by_fd st.registry fd with
  | none => false
  | some c => c.status = ClientStatus.authenticated

/-- `session_manager_get_username`: the bound name of an Authenticated
client. -/
def session_manager_get_username (st : ServerState) (fd : Int) :
    Option (List Char) :=
  match connection_manager_find_by_fd st.registry fd with
  | none => none
  | some c =>
    if c.status = ClientStatus.authenticated then some c.username else none

/-- `session_manager_is_user_online`: the first username match in the registry
exists and is Authenticated. -/
def session_manager_is_user_online (st : ServerState) (u : List Char) : Bool :=
  match connection_manager_find_by_username st.registry u with
  | none => false
  | some c => c.status = ClientStatus.authenticated

/-- `session_manager_get_online_users`: the usernames of the Authenticated
clients in snapshot order. -/
def session_manager_get_online_users (st : ServerState) : List (List Char) :=
  ((connection_manager_get_all st.registry).filter
    (fun c => c.status = ClientStatus.authenticated)).map (fun c => c.username)

/-! ## Router (message_router.c) -/

/-- `send_to_socket`: -1 on a negative descriptor; otherwise the `sendOk`
oracle decides whether the full frame was accepted (0) or the write failed or
was short (-1). -/
def send_to_socket (sendOk : Int → Bool) (fd : Int) : Int :=
  if fd < 0 then -1
  else if sendOk fd then 0 else -1

/-- `route_private_message`: reject non-private records; `ERROR_USER_OFFLINE`
when the receiver is not online; look the receiver up, serialize, send, and
return the send result.  The second component lists the `send_to_socket` calls
made (descriptor and payload). -/
def route_private_message (st : ServerState) (sendOk : Int → Bool)
    (m : Msg) : Int × List (Int × List Char) :=
  if ¬ is_private_msg m then (-1, [])
  else if ¬ session_manager_is_user_online st m.receiver then
    (ERROR_USER_OFFLINE, [])
  else
    match connection_manager_find_by_username st.registry m.receiver with
    | none => (ERROR_USER_NOT_FOUND, [])
    | some receiver =>
      match serialize_message m with
      | none => (-1, [])
      | some frame =>
        (send_to_socket sendOk receiver.sockfd, [(receiver.sockfd, frame)])

/-- `route_broadcast_message`: reject non-broadcast records; -1 on an empty
snapshot; serialize once and send to every Authenticated client whose username
differs from the record's sender, counting successes; 0 iff at least one send
succeeded.  The second component lists the `send_to_socket` calls made. -/
def route_broadcast_message (st : ServerState) (sendOk : Int → Bool)
    (m : Msg) : Int × List (Int × List Char) :=
  if ¬ is_broadcast_msg m then (-1, [])
  else
    let clients := connection_manager_get_all st.registry
    if clients = [] then (-1, [])
    else
      match serialize_message m with
      | none => (-1, [])
      | some frame =>
        let eligible := clients.filter
          (fun c => c.status = ClientStatus.authenticated ∧
                    c.username ≠ m.sender)
        let success := eligible.countP
          (fun c => send_to_socket sendOk c.sockfd = 0)
        (if 0 < success then 0 else -1,
         eligible.map (fun c => (c.sockfd, frame)))

/-! ## Response builders (protocol/builder.c) -/

/-- Decimal rendering of an integer, the `%d` of `snprintf`. -/
def int_repr (i : Int) : List Char := (toString i).data

/-- `build_response_msg`: the reply frame
`TYPE|server|client|now|code|message` with a trailing newline; the content
buffer holds 255 characters and the whole frame buffer 511 (the `snprintf`
truncations).  The C function returns NULL on a type other than OK/ERROR; its
two callers below always pass a valid literal, so that branch is not taken. -/
def build_response_msg (now : List Char) (code : Int) (ty msgtext : List Char) :
    List Char :=
  let content := (int_repr code ++ '|' :: msgtext).take 255
  (ty ++ '|' :: str "server" ++ '|' :: str "client" ++ '|' :: now ++
   '|' :: content ++ ['\n']).take 511

/-- `build_success_msg`: an OK response with code `RESPONSE_SUCCESS`. -/
def build_success_msg (now : List Char) (msgtext : List Char) : List Char :=
  build_response_msg now RESPONSE_SUCCESS MSG_TYPE_OK msgtext

/-- `build_error_msg`: an ERROR response with the given code. -/
def build_error_msg (now : List Char) (code : Int) (msgtext : List Char) :
    List Char :=
  build_response_msg now code MSG_TYPE_ERROR msgtext

/-! ## Command handler (protocol/command_dandler.c) -/

/-- `handle_login`: reject non-LOGIN records; an empty credential (the
record's content) is answered with ERROR 1001 "Missing username or password"
before the session manager is consulted; otherwise authenticate the sender
name with the content as password and answer OK "Login successful" or ERROR
1001 "Invalid username or password".  Returns the handler code, the state
after the call, and the reply frames written to the caller's socket. -/
def handle_login (st : ServerState) (fd : Int) (now : List Char) (m : Msg) :
    Int × ServerState × List (List Char) :=
  if ¬ is_login_msg m then (-1, st, [])
  else if m.content = [] then
    (ERROR_AUTH_FAILED, st,
     [build_error_msg now ERROR_AUTH_FAILED (str "Missing username or password")])
  else
    let res := session_manager_authenticate st fd m.sender m.content
    if res.1 = 1 then
      (0, res.2, [build_success_msg now (str "Login successful")])
    else
      (ERROR_AUTH_FAILED, res.2,
       [build_error_msg now ERROR_AUTH_FAILED (str "Invalid username or password")])

/-- The `status_info` text composed by `handle_status_request`: connected
client count, Authenticated user count, registered user count, and the
caller's own flag, in a 511-character buffer. -/
def status_info_text (st : ServerState) (fd : Int) : List Char :=
  (str "Server Status:\n- Uptime: TODO\n- Connected clients: " ++
   int_repr (Int.ofNat (connection_manager_count st.registry)) ++
   str "\n- Online users: " ++
   int_repr (Int.ofNat (session_manager_get_online_users st).length) ++
   str "\n- Total users: " ++
   int_repr (Int.ofNat (user_store_count st.store)) ++
   str "\n- Your status: " ++
   (if session_manager_is_authenticated st fd then str "Online"
    else str "Offline")).take 511

/-- `handle_status_request`: reject non-STATUS records; otherwise — with no
authentication check — compose the status text and answer it as an OK
response, returning 0.  Returns the handler code and the reply frames written
to the caller's socket. -/
def handle_status_request (st : ServerState) (fd : Int) (now : List Char)
    (m : Msg) : Int × List (List Char) :=
  if ¬ is_status_request m then (-1, [])
  else (0, [build_success_msg now (status_info_text st fd)])

/-! ## Operation sequences (for the registry/session invariant) -/

/-- A connection-registry or session operation, as listed in the spec's
registry/session interface. -/
inductive SrvOp where
  | add (fd : Int) (ip : List Char) (port : Int)
  | remove (fd : Int)
  | auth (fd : Int) (name pw : List Char)
  | logout (fd : Int)
  | setAuth (fd : Int) (uid : Int) (name : List Char)
  | setStatus (fd : Int) (s : ClientStatus)

/-- Apply one operation to the server state. -/
def apply_op (st : ServerState) : SrvOp → ServerState
  | SrvOp.add fd ip port =>
    { st with registry := connection_manager_add_from_fd st.registry fd ip port }
  | SrvOp.remove fd =>
    { st with registry := connection_manager_remove st.registry fd }
  | SrvOp.auth fd name pw => (session_manager_authenticate st fd name pw).2
  | SrvOp.logout fd => session_manager_logout st fd
  | SrvOp.setAuth fd uid name =>
    { st with registry := (connection_manager_set_auth st.registry fd uid name).2 }
  | SrvOp.setStatus fd s =>
    { st with registry := connection_manager_set_status st.registry fd s }

/-- Run a sequence of operations. -/
def run_ops (st : ServerState) (ops : List SrvOp) : ServerState :=
  ops.foldl apply_op st

/-- The server's boot state: empty registry, default credential store (the
`storage_init` wiring). -/
def init_state : ServerState :=
  { registry := { clients := [], next_client_id := 1 },
    store := user_store_init_defaults }

/-- Two clients conflict when both are Authenticated under the same
username. -/
def conflicts (a b : Client) : Bool :=
  a.status = ClientStatus.authenticated ∧
  b.status = ClientStatus.authenticated ∧ a.username = b.username

/-- At most one Authenticated client per username (the spec's registry
invariant), as a decidable predicate on the client list. -/
def auth_unique : List Client → Bool
  | [] => true
  | c :: rest => rest.all (fun b => ¬ conflicts c b) && auth_unique rest

/-! ## Concrete states used by witnesses and counterexamples -/

/-- A sample remote address. -/
def ipStr : List Char := str "1.2.3.4"

/-- One connection (descriptor 100) authenticated as alice. -/
def stAlice : ServerState :=
  run_ops init_state
    [SrvOp.add 100 ipStr 1111,
     SrvOp.auth 100 (str "alice") (str "alice123")]

/-- Connections 100/101/102 authenticated as alice/bob/charlie. -/
def stTrio : ServerState :=
  run_ops init_state
    [SrvOp.add 100 ipStr 1111, SrvOp.add 101 ipStr 1112,
     SrvOp.add 102 ipStr 1113,
     SrvOp.auth 100 (str "alice") (str "alice123"),
     SrvOp.auth 101 (str "bob") (str "bob123"),
     SrvOp.auth 102 (str "charlie") (str "charlie123")]

/-- One merely Connected (never authenticated) client on descriptor 10. -/
def stConn : ServerState := run_ops init_state [SrvOp.add 10 ipStr 1111]

/-! ## Helper lemmas -/

theorem escape_field_eq_nil {s : List Char} : escape_field s = [] ↔ s = [] := by
  constructor
  · intro h
    cases s with
    | nil => rfl
    | cons c rest =>
      simp only [escape_field] at h
      split at h
      · exact (List.cons_ne_nil _ _ h).elim
      split at h
      · exact (List.cons_ne_nil _ _ h).elim
      split at h
      · exact (List.cons_ne_nil _ _ h).elim
      · exact (List.cons_ne_nil _ _ h).elim
  · intro h; subst h; rfl

/-! ## C3 -/

/-- Claim C3: for every string `s`, unescaping the escaped form of `s` yields
`s` again — `unescape_field` is a left inverse of `escape_field`, including on
strings containing delimiters, backslashes and newlines. -/
theorem C3_unescape_escape_field (s : List Char) :
    unescape_field (escape_field s) = s := by
  induction s with
  | nil => rfl
  | cons c rest ih =>
    by_cases h1 : c = '|'
    · subst h1
      simp only [escape_field, if_pos rfl, unescape_field]
      simp [ih]
    · by_cases h2 : c = '\\'
      · subst h2
        simp only [escape_field, unescape_field]
        norm_num
        simp [ih]
      · by_cases h3 : c = '\n'
        · subst h3
          simp only [escape_field, unescape_field]
          norm_num
          simp [ih]
        · simp only [escape_field, if_neg h1, if_neg h2, if_neg h3]
          cases hrest : escape_field rest with
          | nil =>
            have : rest = [] := escape_field_eq_nil.mp hrest
            subst this
            simp [unescape_field]
          | cons d tail =>
            simp only [unescape_field, if_neg h2]
            rw [← hrest, ih]

/-! ## C8 -/

/-- Claim C8 (amended): `validate_message` returns false for every raw record
strictly shorter than 5 bytes (the code's check is `len < 5`, not `≤ 5`). -/
theorem C8_validate_short (raw : List Char) (h : raw.length < 5) :
    validate_message raw = false := by
  simp [validate_message, h]

/-- Witness for C8: the empty record is shorter than 5 bytes and is
rejected. -/
theorem C8_validate_short_witness :
    ([] : List Char).length < 5 ∧ validate_message [] = false :=
  ⟨by decide, C8_validate_short [] (by decide)⟩

/-- Counterexample to C8 as stated: `|||||` is exactly 5 bytes — within the
claim's "at most 5 bytes" — yet `validate_message` accepts it (the code only
rejects records strictly shorter than 5 bytes). -/
theorem C8_counterexample :
    (str "|||||").length ≤ 5 ∧ validate_message (str "|||||") = true := by
  constructor
  · decide
  · decide

/-! ## C9 -/

/-- Claim C9 (amended): `user_store_add` fails — leaving the store
unchanged — exactly when the name is already present; otherwise it inserts a
new user at the head.  No username-format (regex) validation is performed. -/
theorem C9_user_store_add_spec (st : UserStore) (name pw : List Char) :
    ((user_store_add st name pw).1 = 0 ↔
      (user_store_find_by_username st name).isSome = true) ∧
    ((user_store_find_by_username st name).isSome = true →
      (user_store_add st name pw).2 = st) ∧
    ((user_store_find_by_username st name).isSome = false →
      user_store_add st name pw =
        (1, { users := create_user st name pw :: st.users,
              next_user_id := st.next_user_id + 1 })) := by
  by_cases h : (user_store_find_by_username st name).isSome = true
  · refine ⟨?_, fun _ => ?_, fun hf => ?_⟩
    · simp [user_store_add, h]
    · simp [user_store_add, h]
    · rw [h] at hf; exact absurd hf (by decide)
  · have hf : (user_store_find_by_username st name).isSome = false := by
      simpa using h
    refine ⟨?_, fun ht => absurd ht h, fun _ => ?_⟩
    · simp [user_store_add, hf]
    · simp [user_store_add, hf]

/-- Witness for C9: on the default store, adding the duplicate `alice` fails
and leaves the store unchanged, while adding the fresh `zzz` succeeds. -/
theorem C9_user_store_add_spec_witness :
    (user_store_add user_store_init_defaults (str "alice") (str "pw")).2 =
      user_store_init_defaults ∧
    user_store_add user_store_init_defaults (str "zzz") (str "pw") =
      (1, { users := create_user user_store_init_defaults (str "zzz") (str "pw")
              :: user_store_init_defaults.users,
            next_user_id := user_store_init_defaults.next_user_id + 1 }) :=
  ⟨(C9_user_store_add_spec user_store_init_defaults (str "alice")
      (str "pw")).2.1 (by decide),
   (C9_user_store_add_spec user_store_init_defaults (str "zzz")
      (str "pw")).2.2 (by decide)⟩

/-- Counterexample to C9 as stated: `???` fails the username regex, yet
`user_store_add` accepts it — the store never consults
`is_valid_username`. -/
theorem C9_counterexample :
    is_valid_username (str "???") = false ∧
    (user_store_add user_store_init_defaults (str "???") (str "pw")).1 = 1 := by
  constructor
  · decide
  · decide

/-! ## C10 -/

/-- Claim C10: a LOGIN record with an empty credential (empty CONTENT field)
is answered with ERROR 1001 "Missing username or password" and the handler
returns before the session manager is invoked, so the server state — in
particular the connection's session — is unchanged, whatever the named user
is. -/
theorem C10_handle_login_empty_credential (st : ServerState) (fd : Int)
    (now : List Char) (m : Msg) (hl : is_login_msg m = true)
    (hc : m.content = []) :
    handle_login st fd now m =
      (ERROR_AUTH_FAILED, st,
       [build_error_msg now ERROR_AUTH_FAILED
          (str "Missing username or password")]) := by
  simp [handle_login, hl, hc]

/-- Witness for C10: a concrete LOGIN for the existing user alice with empty
credential gets the 1001 reply and leaves the one-connection state intact. -/
theorem C10_handle_login_empty_credential_witness :
    handle_login stConn 10 (str "now")
      { type := str "LOGIN", sender := str "alice", receiver := str "server",
        timestamp := str "t", content := [], message_id := 100,
        is_delivered := false } =
      (ERROR_AUTH_FAILED, stConn,
       [build_error_msg (str "now") ERROR_AUTH_FAILED
          (str "Missing username or password")]) :=
  C10_handle_login_empty_credential stConn 10 (str "now") _ (by decide) rfl

/-! ## C5 -/

/-- Claim C5 (amended): `session_manager_authenticate` on a handle that is
already Authenticated returns success (1) without re-binding for EVERY
requested name — the same identity and any different identity alike; the
state, hence the existing binding, is unchanged.  No 1001 rejection happens
for a different identity. -/
theorem C5_reauthenticate_any_name (st : ServerState) (fd : Int)
    (name pw : List Char) (c : Client)
    (hfind : connection_manager_find_by_fd st.registry fd = some c)
    (hauth : c.status = ClientStatus.authenticated) :
    session_manager_authenticate st fd name pw = (1, st) := by
  simp [session_manager_authenticate, hfind, hauth]

/-- Witness for C5: with alice bound on descriptor 100, re-authenticating as
bob still returns success with the state unchanged. -/
theorem C5_reauthenticate_any_name_witness :
    session_manager_authenticate stAlice 100 (str "bob") (str "bob123")
      = (1, stAlice) :=
  C5_reauthenticate_any_name stAlice 100 (str "bob") (str "bob123")
    { sockfd := 100, client_id := 1, user_id := 1001,
      username := str "alice", status := ClientStatus.authenticated,
      remote_ip := ipStr, remote_port := 1111 }
    (by decide) rfl

/-- Counterexample to C5 as stated: descriptor 100 is Authenticated as alice,
yet authenticating it as the different identity bob is not rejected with 1001:
the session manager reports success and `handle_login` even answers
OK "Login successful" (code 0), with the binding still alice. -/
theorem C5_counterexample :
    session_manager_authenticate stAlice 100 (str "bob") (str "bob123")
        = (1, stAlice) ∧
    (connection_manager_find_by_fd stAlice.registry 100).map Client.username
        = some (str "alice") ∧
    handle_login stAlice 100 (str "now")
      { type := str "LOGIN", sender := str "bob", receiver := str "server",
        timestamp := str "t", content := str "bob123", message_id := 100,
        is_delivered := false } =
      (0, stAlice, [build_success_msg (str "now") (str "Login successful")]) := by
  refine ⟨by decide, by decide, by decide⟩

/-! ## C6 -/

/-- Claim C6 (amended): `handle_status_request` performs no authentication
check: EVERY caller — authenticated or not — receives the OK reply whose
message carries the connected-client count, the Authenticated-user count, the
registered-user count and the caller's own status flag (Online exactly when
the caller is authenticated), and the handler returns 0. -/
theorem C6_handle_status_no_auth_required (st : ServerState) (fd : Int)
    (now : List Char) (m : Msg) (hs : is_status_request m = true) :
    handle_status_request st fd now m =
      (0, [build_success_msg now
        ((str "Server Status:\n- Uptime: TODO\n- Connected clients: " ++
          int_repr (Int.ofNat (connection_manager_count st.registry)) ++
          str "\n- Online users: " ++
          int_repr (Int.ofNat (session_manager_get_online_users st).length) ++
          str "\n- Total users: " ++
          int_repr (Int.ofNat (user_store_count st.store)) ++
          str "\n- Your status: " ++
          (if session_manager_is_authenticated st fd then str "Online"
           else str "Offline")).take 511)]) := by
  simp [handle_status_request, hs, status_info_text]

/-- Witness for C6: the authenticated caller alice gets the OK status reply
(flag Online). -/
theorem C6_handle_status_no_auth_required_witness :
    handle_status_request stAlice 100 (str "now")
      { type := str "STATUS", sender := str "alice", receiver := str "server",
        timestamp := str "t", content := [], message_id := 100,
        is_delivered := false } =
      (0, [build_success_msg (str "now")
        ((str "Server Status:\n- Uptime: TODO\n- Connected clients: " ++
          int_repr (Int.ofNat (connection_manager_count stAlice.registry)) ++
          str "\n- Online users: " ++
          int_repr (Int.ofNat (session_manager_get_online_users stAlice).length) ++
          str "\n- Total users: " ++
          int_repr (Int.ofNat (user_store_count stAlice.store)) ++
          str "\n- Your status: " ++
          (if session_manager_is_authenticated stAlice 100 then str "Online"
           else str "Offline")).take 511)]) :=
  C6_handle_status_no_auth_required stAlice 100 (str "now") _ (by decide)

/-- Counterexample to C6 as stated: the caller on descriptor 10 is NOT
authenticated, yet `handle_status_request` still answers with the OK status
reply and returns 0 — the handler does not require authentication. -/
theorem C6_counterexample :
    session_manager_is_authenticated stConn 10 = false ∧
    handle_status_request stConn 10 (str "now")
      { type := str "STATUS", sender := str "x", receiver := str "server",
        timestamp := str "t", content := [], message_id := 100,
        is_delivered := false } =
      (0, [build_success_msg (str "now") (status_info_text stConn 10)]) := by
  refine ⟨by decide, by decide⟩

/-! ## C1 -/

theorem serialize_message_isSome {m : Msg} (h : m.type ≠ []) :
    ∃ frame, serialize_message m = some frame := by
  simp [serialize_message, h]

/-- Claim C1 (amended): for a parsed MSG record, the router serializes the
record, writes it to the receiver's socket and returns the write's result
(0 on success) when the receiver's username resolves to an Authenticated
client; whenever the receiver is NOT online it returns 1003
(`ERROR_USER_OFFLINE`) — regardless of whether the username exists in the
credential store, which is never consulted; 1002 (`ERROR_USER_NOT_FOUND`) is
never returned, its branch being unreachable. -/
theorem C1_route_private (st : ServerState) (sendOk : Int → Bool) (m : Msg)
    (hp : is_private_msg m = true) :
    (session_manager_is_user_online st m.receiver = false →
       route_private_message st sendOk m = (ERROR_USER_OFFLINE, [])) ∧
    (∀ c, connection_manager_find_by_username st.registry m.receiver = some c →
       c.status = ClientStatus.authenticated →
       ∃ frame, serialize_message m = some frame ∧
         route_private_message st sendOk m =
           (send_to_socket sendOk c.sockfd, [(c.sockfd, frame)])) ∧
    (route_private_message st sendOk m).1 ≠ ERROR_USER_NOT_FOUND := by
  have htype : m.type = MSG_TYPE_MSG := by
    simp [is_private_msg] at hp
    exact hp.1
  have htne : m.type ≠ [] := by rw [htype]; decide
  obtain ⟨frame, hframe⟩ := serialize_message_isSome htne
  refine ⟨fun hoff => ?_, fun c hfind hcauth => ?_, ?_⟩
  · simp [route_private_message, hp, hoff]
  · have honline : session_manager_is_user_online st m.receiver = true := by
      simp [session_manager_is_user_online, hfind, hcauth]
    refine ⟨frame, hframe, ?_⟩
    simp [route_private_message, hp, honline, hfind, hframe]
  · cases honline : session_manager_is_user_online st m.receiver with
    | false =>
      simp [route_private_message, hp, honline]
      decide
    | true =>
      have hfind : ∃ c,
          connection_manager_find_by_username st.registry m.receiver = some c := by
        unfold session_manager_is_user_online at honline
        cases hf : connection_manager_find_by_username st.registry m.receiver with
        | none => rw [hf] at honline; simp at honline
        | some c => exact ⟨c, rfl⟩
      obtain ⟨c, hf⟩ := hfind
      simp only [route_private_message, hp, honline, hf, hframe]
      simp only [send_to_socket]
      split
      · norm_num [ERROR_USER_NOT_FOUND]
      split
      · norm_num [ERROR_USER_NOT_FOUND]
      · split <;> norm_num [ERROR_USER_NOT_FOUND]

/-- Witness for C1: with bob Authenticated on socket 101 and every write
accepted, alice's MSG to bob is serialized, written to socket 101, and the
router returns 0. -/
theorem C1_route_private_witness :
    ∃ frame,
      serialize_message
        { type := str "MSG", sender := str "alice", receiver := str "bob",
          timestamp := str "t", content := str "hi", message_id := 100,
          is_delivered := false } = some frame ∧
      route_private_message stTrio (fun _ => true)
        { type := str "MSG", sender := str "alice", receiver := str "bob",
          timestamp := str "t", content := str "hi", message_id := 100,
          is_delivered := false } =
        (send_to_socket (fun _ => true) 101, [(101, frame)]) :=
  (C1_route_private stTrio (fun _ => true) _ (by decide)).2.1
    { sockfd := 101, client_id := 2, user_id := 1002,
      username := str "bob", status := ClientStatus.authenticated,
      remote_ip := ipStr, remote_port := 1112 }
    (by decide) rfl

/-- Counterexample to C1 as stated: alice messages `zzz`, a username unknown
to the credential store; the claim requires 1002, but the router answers 1003
(`ERROR_USER_OFFLINE`) because it only checks the online status and never the
credential store. -/
theorem C1_counterexample :
    user_store_find_by_username stAlice.store (str "zzz") = none ∧
    route_private_message stAlice (fun _ => true)
      { type := str "MSG", sender := str "alice", receiver := str "zzz",
        timestamp := str "t", content := str "hi", message_id := 100,
        is_delivered := false } = (ERROR_USER_OFFLINE, []) ∧
    ERROR_USER_OFFLINE ≠ ERROR_USER_NOT_FOUND := by
  refine ⟨by decide, by decide, by decide⟩

/-! ## C7 -/

/-- Claim C7 (amended): a BROADCAST routed for a sender-verified source is
serialized once and sent exactly to the snapshot clients whose status is
Authenticated and whose USERNAME differs from the record's sender — the
exclusion is keyed on the username, not on the source handle, so a second
client Authenticated under the sender's own username (reachable, see the C2
counterexample) also receives nothing.  The frame is never written to the
source's own socket, and the router returns 0 exactly when at least one of
those sends succeeded; failed sends beyond the first success do not change
the code.  Socket descriptors are assumed pairwise distinct in the registry,
as every reachable registry state has them. -/
theorem C7_route_broadcast (st : ServerState) (sendOk : Int → Bool) (m : Msg)
    (hS : Int) (cS : Client)
    (hb : is_broadcast_msg m = true)
    (hnd : (st.registry.clients.map (fun c => c.sockfd)).Nodup)
    (hsrc : connection_manager_find_by_fd st.registry hS = some cS)
    (hname : cS.username = m.sender) :
    ∃ frame, serialize_message m = some frame ∧
      (route_broadcast_message st sendOk m).2 =
        ((connection_manager_get_all st.registry).filter
          (fun c => c.status = ClientStatus.authenticated ∧
                    c.username ≠ m.sender)).map (fun c => (c.sockfd, frame)) ∧
      ((route_broadcast_message st sendOk m).1 = 0 ↔
        ∃ c ∈ (connection_manager_get_all st.registry).filter
          (fun c => c.status = ClientStatus.authenticated ∧
                    c.username ≠ m.sender),
          send_to_socket sendOk c.sockfd = 0) ∧
      (∀ w ∈ (route_broadcast_message st sendOk m).2, w.1 ≠ cS.sockfd) := by
  have htne : m.type ≠ [] := by
    simp only [is_broadcast_msg, decide_eq_true_eq] at hb
    rw [hb]; decide
  obtain ⟨frame, hframe⟩ := serialize_message_isSome htne
  have hmemS : cS ∈ st.registry.clients :=
    List.mem_of_find?_eq_some hsrc
  by_cases hcl : st.registry.clients = []
  · have hroute : route_broadcast_message st sendOk m = (-1, []) := by
      simp [route_broadcast_message, hb, connection_manager_get_all, hcl]
    refine ⟨frame, hframe, ?_, ?_, ?_⟩
    · simp [hroute, connection_manager_get_all, hcl]
    · simp only [hroute, connection_manager_get_all, hcl, List.filter_nil]
      norm_num
    · simp [hroute]
  · have hroute : route_broadcast_message st sendOk m =
        (if 0 < (((connection_manager_get_all st.registry).filter
            (fun c => c.status = ClientStatus.authenticated ∧
                      c.username ≠ m.sender)).countP
            (fun c => send_to_socket sendOk c.sockfd = 0)) then (0 : Int) else -1,
         ((connection_manager_get_all st.registry).filter
            (fun c => c.status = ClientStatus.authenticated ∧
                      c.username ≠ m.sender)).map
            (fun c => (c.sockfd, frame))) := by
      simp only [route_broadcast_message, hb, hframe, connection_manager_get_all,
        not_true, Bool.true_eq_false, if_false, hcl]
    refine ⟨frame, hframe, ?_, ?_, ?_⟩
    · rw [hroute]
    · rw [hroute]
      split
      · rename_i hpos
        rw [List.countP_pos_iff] at hpos
        simp only [true_iff]
        obtain ⟨c, hc, hcp⟩ := hpos
        exact ⟨c, hc, by simpa using hcp⟩
      · rename_i hneg
        rw [List.countP_pos_iff] at hneg
        push_neg at hneg
        constructor
        · intro h; norm_num at h
        · intro ⟨c, hc, hcp⟩
          exact absurd (by simpa using hcp) (by simpa using hneg c hc)
    · rw [hroute]
      intro w hw
      simp only [List.mem_map, List.mem_filter] at hw
      obtain ⟨c, ⟨hcmem, hcprop⟩, hwc⟩ := hw
      have hcmem2 : c ∈ st.registry.clients := by
        simpa [connection_manager_get_all] using hcmem
      simp only [decide_eq_true_eq] at hcprop
      intro heq
      have hceq : c = cS := by
        apply List.inj_on_of_nodup_map hnd hcmem2 hmemS
        rw [← hwc] at heq
        exact heq
      rw [hceq] at hcprop
      exact hcprop.2 (by rw [hname])

/-- Witness for C7: alice (socket 100) broadcasts while bob (101) and
charlie (102) are Authenticated and every write succeeds: the frame goes to
exactly the snapshot's other Authenticated clients, the code is 0, and no
send targets alice's socket 100. -/
theorem C7_route_broadcast_witness :
    ∃ frame,
      serialize_message
        { type := str "BROADCAST", sender := str "alice", receiver := str "*",
          timestamp := str "t", content := str "hello", message_id := 100,
          is_delivered := false } = some frame ∧
      (route_broadcast_message stTrio (fun _ => true)
        { type := str "BROADCAST", sender := str "alice", receiver := str "*",
          timestamp := str "t", content := str "hello", message_id := 100,
          is_delivered := false }).2 =
        ((connection_manager_get_all stTrio.registry).filter
          (fun c => c.status = ClientStatus.authenticated ∧
                    c.username ≠ str "alice")).map (fun c => (c.sockfd, frame)) ∧
      ((route_broadcast_message stTrio (fun _ => true)
        { type := str "BROADCAST", sender := str "alice", receiver := str "*",
          timestamp := str "t", content := str "hello", message_id := 100,
          is_delivered := false }).1 = 0 ↔
        ∃ c ∈ (connection_manager_get_all stTrio.registry).filter
          (fun c => c.status = ClientStatus.authenticated ∧
                    c.username ≠ str "alice"),
          send_to_socket (fun _ => true) c.sockfd = 0) ∧
      (∀ w ∈ (route_broadcast_message stTrio (fun _ => true)
        { type := str "BROADCAST", sender := str "alice", receiver := str "*",
          timestamp := str "t", content := str "hello", message_id := 100,
          is_delivered := false }).2, w.1 ≠ 100) :=
  C7_route_broadcast stTrio (fun _ => true) _ 100
    { sockfd := 100, client_id := 1, user_id := 1001,
      username := str "alice", status := ClientStatus.authenticated,
      remote_ip := ipStr, remote_port := 1111 }
    (by decide) (by decide) (by decide) rfl

/-- The duplicate-identity state: descriptors 100 and 101 both Authenticated
as alice (reachable, since no mutation enforces username uniqueness), bob
Authenticated on 102. -/
def stDupAlice : ServerState :=
  run_ops init_state
    [SrvOp.add 100 ipStr 1111, SrvOp.add 101 ipStr 1112,
     SrvOp.add 102 ipStr 1113,
     SrvOp.auth 100 (str "alice") (str "alice123"),
     SrvOp.auth 101 (str "alice") (str "alice123"),
     SrvOp.auth 102 (str "bob") (str "bob123")]

/-- Counterexample to C7 as stated: at `stDupAlice`, alice on descriptor 100
broadcasts with every write accepted.  The client on descriptor 101 is in the
snapshot, is Authenticated, and is a different client than the source (its
handle 101 differs from 100) — yet the frame is written only to socket 102:
the code excludes recipients by username equality with the record's sender,
so the other Authenticated alice receives no write, contrary to the claim's
"written once to each Authenticated client other than S". -/
theorem C7_counterexample :
    connection_manager_find_by_fd stDupAlice.registry 101
      = some { sockfd := 101, client_id := 2, user_id := 1001,
               username := str "alice", status := ClientStatus.authenticated,
               remote_ip := ipStr, remote_port := 1112 } ∧
    (route_broadcast_message stDupAlice (fun _ => true)
      { type := str "BROADCAST", sender := str "alice", receiver := str "*",
        timestamp := str "t", content := str "hello", message_id := 100,
        is_delivered := false }).2.map Prod.fst = [102] ∧
    (101 : Int) ∉ (route_broadcast_message stDupAlice (fun _ => true)
      { type := str "BROADCAST", sender := str "alice", receiver := str "*",
        timestamp := str "t", content := str "hello", message_id := 100,
        is_delivered := false }).2.map Prod.fst := by
  refine ⟨by decide, by decide, by decide⟩

/-! ## C2 -/

theorem conflicts_left {a b : Client}
    (h : a.status ≠ ClientStatus.authenticated) : conflicts a b = false := by
  simp [conflicts, h]

theorem conflicts_right {a b : Client}
    (h : b.status ≠ ClientStatus.authenticated) : conflicts a b = false := by
  simp [conflicts, h]

theorem auth_unique_cons_iff {c : Client} {l : List Client} :
    auth_unique (c :: l) = true ↔
      (∀ b ∈ l, conflicts c b = false) ∧ auth_unique l = true := by
  simp [auth_unique, List.all_eq_true]

theorem auth_unique_sublist {l l' : List Client} (hs : List.Sublist l' l)
    (h : auth_unique l = true) : auth_unique l' = true := by
  induction hs with
  | slnil => exact h
  | cons a hsub ih =>
    rw [auth_unique_cons_iff] at h
    exact ih h.2
  | cons₂ a hsub ih =>
    rw [auth_unique_cons_iff] at h ⊢
    refine ⟨fun b hb => h.1 b (hsub.subset hb), ih h.2⟩

theorem update_first_all {q : Client → Bool} {p : Client → Bool}
    {f : Client → Client} {l : List Client}
    (h1 : ∀ b ∈ l, q b = true) (h2 : ∀ b ∈ l, q (f b) = true) :
    ∀ b ∈ update_first p f l, q b = true := by
  induction l with
  | nil => intro b hb; exact absurd hb (by simp [update_first])
  | cons c rest ih =>
    intro b hb
    rw [update_first] at hb
    by_cases hp : p c = true
    · rw [if_pos hp] at hb
      rcases List.mem_cons.mp hb with hb | hb
      · rw [hb]; exact h2 c (List.mem_cons_self c rest)
      · exact h1 b (List.mem_cons_of_mem c hb)
    · rw [if_neg hp] at hb
      rcases List.mem_cons.mp hb with hb | hb
      · rw [hb]; exact h1 c (List.mem_cons_self c rest)
      · exact ih (fun x hx => h1 x (List.mem_cons_of_mem c hx))
          (fun x hx => h2 x (List.mem_cons_of_mem c hx)) b hb

theorem auth_unique_update_nonauth {p : Client → Bool} {f : Client → Client}
    {l : List Client} (hf : ∀ c, (f c).status ≠ ClientStatus.authenticated)
    (h : auth_unique l = true) : auth_unique (update_first p f l) = true := by
  induction l with
  | nil => simpa [update_first] using h
  | cons c rest ih =>
    rw [auth_unique_cons_iff] at h
    rw [update_first]
    by_cases hp : p c = true
    · rw [if_pos hp, auth_unique_cons_iff]
      exact ⟨fun b hb => conflicts_left (hf c), h.2⟩
    · rw [if_neg hp, auth_unique_cons_iff]
      refine ⟨?_, ih h.2⟩
      intro b hb
      have := update_first_all (q := fun b => ! conflicts c b) (p := p) (f := f)
        (l := rest) (fun x hx => by simpa using h.1 x hx)
        (fun x hx => by simp [conflicts_right (hf x)]) b hb
      simpa using this

theorem auth_unique_update_auth {p : Client → Bool} {f : Client → Client}
    {l : List Client} {u : List Char}
    (hf : ∀ c, (f c).username = u)
    (hno : ∀ b ∈ l, ¬ (b.status = ClientStatus.authenticated ∧ b.username = u))
    (h : auth_unique l = true) : auth_unique (update_first p f l) = true := by
  induction l with
  | nil => simpa [update_first] using h
  | cons c rest ih =>
    rw [auth_unique_cons_iff] at h
    rw [update_first]
    by_cases hp : p c = true
    · rw [if_pos hp, auth_unique_cons_iff]
      refine ⟨?_, h.2⟩
      intro b hb
      have hbno := hno b (List.mem_cons_of_mem c hb)
      simp only [conflicts, decide_eq_false_iff_not]
      rintro ⟨h1, h2, h3⟩
      exact hbno ⟨h2, by rw [← h3, hf c]⟩
    · rw [if_neg hp, auth_unique_cons_iff]
      refine ⟨?_, ih (fun b hb => hno b (List.mem_cons_of_mem c hb)) h.2⟩
      intro b hb
      have := update_first_all (q := fun b => ! conflicts c b) (p := p) (f := f)
        (l := rest) (fun x hx => by simpa using h.1 x hx)
        (fun x hx => ?_) b hb
      · simpa using this
      · simp only [Bool.not_eq_true']
        simp only [conflicts, decide_eq_false_iff_not]
        rintro ⟨h1, h2, h3⟩
        exact hno c (List.mem_cons_self c rest) ⟨h1, by rw [h3, hf x]⟩

theorem auth_unique_add {r : Registry} {fd : Int} {ip : List Char} {port : Int}
    (h : auth_unique r.clients = true) :
    auth_unique (connection_manager_add_from_fd r fd ip port).clients = true := by
  rw [connection_manager_add_from_fd]
  by_cases hf : (connection_manager_find_by_fd r fd).isSome = true
  · rw [if_pos hf]; exact h
  · rw [if_neg hf]
    rw [auth_unique_cons_iff]
    exact ⟨fun b hb => conflicts_left (by intro hc; cases hc), h⟩

theorem auth_unique_remove {r : Registry} {fd : Int}
    (h : auth_unique r.clients = true) :
    auth_unique (connection_manager_remove r fd).clients = true :=
  auth_unique_sublist (List.eraseP_sublist _) h

theorem auth_unique_logout {st : ServerState} {fd : Int}
    (h : auth_unique st.registry.clients = true) :
    auth_unique (session_manager_logout st fd).registry.clients = true := by
  rw [session_manager_logout]
  cases hfind : connection_manager_find_by_fd st.registry fd with
  | none => exact h
  | some c =>
    dsimp only
    by_cases hc : c.status = ClientStatus.authenticated
    · rw [if_neg (fun hne => hne hc)]
      exact auth_unique_update_nonauth (fun x => by intro hx; cases hx) h
    · rw [if_pos hc]
      exact h

theorem auth_unique_set_status {r : Registry} {fd : Int} {s : ClientStatus}
    (hs : s ≠ ClientStatus.authenticated)
    (h : auth_unique r.clients = true) :
    auth_unique (connection_manager_set_status r fd s).clients = true := by
  rw [connection_manager_set_status]
  exact auth_unique_update_nonauth (fun x => hs) h

theorem auth_unique_set_auth {r : Registry} {fd : Int} {uid : Int}
    {name : List Char}
    (hno : ∀ b ∈ r.clients, ¬ (b.status = ClientStatus.authenticated ∧
             b.username = name.take 31))
    (h : auth_unique r.clients = true) :
    auth_unique (connection_manager_set_auth r fd uid name).2.clients = true := by
  rw [connection_manager_set_auth]
  by_cases hf : (connection_manager_find_by_fd r fd).isSome = true
  · rw [if_pos hf]
    exact auth_unique_update_auth (fun x => rfl) hno h
  · rw [if_neg hf]; exact h

theorem auth_unique_authenticate {st : ServerState} {fd : Int}
    {name pw : List Char}
    (hno : ∀ b ∈ st.registry.clients,
      ¬ (b.status = ClientStatus.authenticated ∧ b.username = name.take 31))
    (h : auth_unique st.registry.clients = true) :
    auth_unique (session_manager_authenticate st fd name pw).2.registry.clients
      = true := by
  rw [session_manager_authenticate]
  cases hfind : connection_manager_find_by_fd st.registry fd with
  | none => exact h
  | some c =>
    by_cases hc : c.status = ClientStatus.authenticated
    · simp only [hc, if_true]
      exact h
    · simp only [hc, if_false]
      by_cases hu : user_store_authenticate st.store name pw = true
      · simp only [hu, not_true, if_false]
        cases hfu : user_store_find_by_username st.store name with
        | none => exact h
        | some u =>
          simp only []
          exact auth_unique_set_auth hno h
      · simp only [hu]
        simp only [Bool.not_eq_true] at hu
        simp [hu]
        exact h

/-- Claim C2 (amended): the registry/session mutations preserve the
at-most-one-Authenticated-client-per-username property only conditionally:
add, remove and logout always preserve it; set_status preserves it when the
written status is not Authenticated; authenticate and set_auth preserve it
only under the additional precondition that no registry entry is already
Authenticated under the requested (truncated) username — a precondition the
code itself never checks, so the invariant can be violated at reachable
states (see the counterexample). -/
theorem C2_auth_uniqueness_preservation (st : ServerState) (fd : Int)
    (ip name pw : List Char) (port uid : Int) (s : ClientStatus)
    (h : auth_unique st.registry.clients = true) :
    auth_unique (apply_op st (SrvOp.add fd ip port)).registry.clients = true ∧
    auth_unique (apply_op st (SrvOp.remove fd)).registry.clients = true ∧
    auth_unique (apply_op st (SrvOp.logout fd)).registry.clients = true ∧
    (s ≠ ClientStatus.authenticated →
      auth_unique (apply_op st (SrvOp.setStatus fd s)).registry.clients = true) ∧
    ((∀ b ∈ st.registry.clients,
        ¬ (b.status = ClientStatus.authenticated ∧ b.username = name.take 31)) →
      auth_unique (apply_op st (SrvOp.auth fd name pw)).registry.clients = true ∧
      auth_unique (apply_op st (SrvOp.setAuth fd uid name)).registry.clients
        = true) := by
  refine ⟨auth_unique_add h, auth_unique_remove h, auth_unique_logout h,
    fun hs => auth_unique_set_status hs h,
    fun hno => ⟨auth_unique_authenticate hno h, auth_unique_set_auth hno h⟩⟩

/-- Witness for C2: on the state with alice bound to descriptor 100 the
guarded preservation facts hold concretely (fresh descriptor 200, non-auth
status write, authentication as the not-yet-online bob). -/
theorem C2_auth_uniqueness_preservation_witness :
    auth_unique (apply_op stAlice (SrvOp.add 200 ipStr 2222)).registry.clients
        = true ∧
    auth_unique (apply_op stAlice (SrvOp.remove 100)).registry.clients = true ∧
    auth_unique (apply_op stAlice (SrvOp.logout 100)).registry.clients = true ∧
    auth_unique (apply_op stAlice
        (SrvOp.setStatus 100 ClientStatus.offline)).registry.clients = true ∧
    auth_unique (apply_op stAlice
        (SrvOp.auth 100 (str "bob") (str "bob123"))).registry.clients = true ∧
    auth_unique (apply_op stAlice
        (SrvOp.setAuth 100 1002 (str "bob"))).registry.clients = true := by
  have h := C2_auth_uniqueness_preservation stAlice 100 ipStr (str "bob")
    (str "bob123") 2222 1002 ClientStatus.offline (by decide)
  have h200 := C2_auth_uniqueness_preservation stAlice 200 ipStr (str "bob")
    (str "bob123") 2222 1002 ClientStatus.offline (by decide)
  exact ⟨h200.1, h.2.1, h.2.2.1, h.2.2.2.1 (by decide),
    (h.2.2.2.2 (by decide)).1, (h.2.2.2.2 (by decide)).2⟩

/-- Counterexample to C2 as stated: a reachable state violating the
invariant — two connections authenticate as alice one after the other, and
both end up Authenticated under the username alice (no mutation enforces
uniqueness). -/
theorem C2_counterexample :
    auth_unique (run_ops init_state
      [SrvOp.add 100 ipStr 1111, SrvOp.add 101 ipStr 1112,
       SrvOp.auth 100 (str "alice") (str "alice123"),
       SrvOp.auth 101 (str "alice") (str "alice123")]).registry.clients
        = false ∧
    (run_ops init_state
      [SrvOp.add 100 ipStr 1111, SrvOp.add 101 ipStr 1112,
       SrvOp.auth 100 (str "alice") (str "alice123"),
       SrvOp.auth 101 (str "alice") (str "alice123")]).registry.clients.map
        (fun c => (c.username, c.status)) =
      [(str "alice", ClientStatus.authenticated),
       (str "alice", ClientStatus.authenticated)] := by
  refine ⟨by decide, by decide⟩

/-! ## C4 -/

theorem unescape_field_no_backslash {s : List Char} (h : '\\' ∉ s) :
    unescape_field s = s := by
  induction s with
  | nil => rfl
  | cons a as ih =>
    have ha : a ≠ '\\' := fun heq => h (heq ▸ List.mem_cons_self a as)
    cases as with
    | nil => rfl
    | cons b bs =>
      simp only [unescape_field]
      rw [if_neg ha, ih (fun hm => h (List.mem_cons_of_mem a hm))]

theorem split_fields_delim {rest : List Char} {n : Nat}
    (hn : n < FIELD_COUNT - 1) :
    split_fields ('|' :: rest) 0 n = [] :: split_fields rest 0 (n + 1) := by
  simp only [split_fields]
  rw [if_pos ⟨by norm_num, by norm_num, hn⟩]

theorem split_fields_append {xs rest : List Char} {n : Nat} {f : List Char}
    {fs : List (List Char)}
    (h1 : '|' ∉ xs) (h2 : '\\' ∉ xs)
    (h : split_fields rest 0 n = f :: fs) :
    split_fields (xs ++ rest) 0 n = (xs ++ f) :: fs := by
  induction xs with
  | nil => simpa using h
  | cons a as ih =>
    have ha1 : a ≠ '|' := fun heq => h1 (heq ▸ List.mem_cons_self a as)
    have ha2 : a ≠ '\\' := fun heq => h2 (heq ▸ List.mem_cons_self a as)
    rw [List.cons_append]
    simp only [split_fields]
    rw [if_neg (fun hcond => ha1 hcond.1), if_neg ha2,
      ih (fun hm => h1 (List.mem_cons_of_mem a hm))
         (fun hm => h2 (List.mem_cons_of_mem a hm))]
    rfl

theorem split_fields_content {c : List Char} (hc : '\\' ∉ c) (bs : Nat) :
    split_fields c bs (FIELD_COUNT - 1) = [c] := by
  induction c generalizing bs with
  | nil => rfl
  | cons a as ih =>
    have ha : a ≠ '\\' := fun heq => hc (heq ▸ List.mem_cons_self a as)
    simp only [split_fields]
    rw [if_neg (fun hcond => absurd hcond.2.2 (by norm_num)), if_neg ha,
      ih (fun hm => hc (List.mem_cons_of_mem a hm)) 0]

theorem valid_type_facts {t : List Char} (h : is_valid_msg_type t = true) :
    (unescape_field t).take 15 = t ∧ t ≠ [] ∧ '|' ∉ t ∧ '\\' ∉ t := by
  simp only [is_valid_msg_type, decide_eq_true_eq] at h
  rcases h with h|h|h|h|h|h|h|h|h <;> subst h <;>
    exact ⟨by decide, by decide, by decide, by decide⟩

/-- Claim C4 (amended): for a valid raw frame whose first four fields are
plain (no unescaped separator inside them) and whose remainder may contain
any number of further unescaped `|`, parse succeeds (given a known TYPE tag,
which parse additionally requires), splits only at the first four unescaped
separators, and the entire remainder — every further unescaped `|` with its
surrounding text — becomes the CONTENT field, truncated to the 255-character
field capacity (`safe_strcpy` into the 256-byte content buffer): extras
survive only within that cap. -/
theorem C4_parse_extra_delims (nid : Nat) (now t s r ts c : List Char)
    (hvt : is_valid_msg_type t = true)
    (hs1 : '|' ∉ s) (hs2 : '\\' ∉ s)
    (hr1 : '|' ∉ r) (hr2 : '\\' ∉ r)
    (hts1 : '|' ∉ ts) (hts2 : '\\' ∉ ts)
    (hc : '\\' ∉ c)
    (hv : validate_message
        (t ++ '|' :: s ++ '|' :: r ++ '|' :: ts ++ '|' :: c ++ ['\n']) = true) :
    parse_message nid now
        (t ++ '|' :: s ++ '|' :: r ++ '|' :: ts ++ '|' :: c ++ ['\n'])
      = some { type := t, sender := s.take 31, receiver := r.take 31,
               timestamp := if ts.take 31 = [] then now else ts.take 31,
               content := c.take 255, message_id := nid,
               is_delivered := false } := by
  obtain ⟨hty, htne, ht1, ht2⟩ := valid_type_facts hvt
  have hsplitc : split_fields c 0 (FIELD_COUNT - 1) = [c] :=
    split_fields_content hc 0
  have h4 : split_fields ('|' :: c) 0 3 = [[], c] := by
    rw [split_fields_delim (by decide)]
    rw [show (3 + 1) = FIELD_COUNT - 1 from by decide, hsplitc]
  have h3 : split_fields (ts ++ ('|' :: c)) 0 3 = [ts, c] := by
    have := split_fields_append hts1 hts2 h4
    simpa using this
  have h2b : split_fields ('|' :: (ts ++ ('|' :: c))) 0 2 = [[], ts, c] := by
    rw [split_fields_delim (by decide), h3]
  have h2 : split_fields (r ++ ('|' :: (ts ++ ('|' :: c)))) 0 2
      = [r, ts, c] := by
    have := split_fields_append hr1 hr2 h2b
    simpa using this
  have h1b : split_fields ('|' :: (r ++ ('|' :: (ts ++ ('|' :: c))))) 0 1
      = [[], r, ts, c] := by
    rw [split_fields_delim (by decide), h2]
  have h1 : split_fields (s ++ ('|' :: (r ++ ('|' :: (ts ++ ('|' :: c)))))) 0 1
      = [s, r, ts, c] := by
    have := split_fields_append hs1 hs2 h1b
    simpa using this
  have h0b : split_fields
      ('|' :: (s ++ ('|' :: (r ++ ('|' :: (ts ++ ('|' :: c))))))) 0 0
      = [[], s, r, ts, c] := by
    rw [split_fields_delim (by decide), h1]
  have h0 : split_fields
      (t ++ ('|' :: (s ++ ('|' :: (r ++ ('|' :: (ts ++ ('|' :: c)))))))) 0 0
      = [t, s, r, ts, c] := by
    have := split_fields_append ht1 ht2 h0b
    simpa using this
  have hraw_ne : t ++ '|' :: s ++ '|' :: r ++ '|' :: ts ++ '|' :: c ++ ['\n']
      ≠ [] := by
    cases t <;> simp
  have hstrip : strip_trailing_nl
      (t ++ '|' :: s ++ '|' :: r ++ '|' :: ts ++ '|' :: c ++ ['\n'])
      = t ++ ('|' :: (s ++ ('|' :: (r ++ ('|' :: (ts ++ ('|' :: c))))))) := by
    have hEq : t ++ '|' :: s ++ '|' :: r ++ '|' :: ts ++ '|' :: c ++ ['\n']
        = (t ++ ('|' :: (s ++ ('|' :: (r ++ ('|' :: (ts ++ ('|' :: c))))))))
          ++ ['\n'] := by
      simp
    rw [hEq, strip_trailing_nl, if_pos (List.getLast?_concat _)]
    exact List.dropLast_concat
  have hv2 : validate_message
      (t ++ '|' :: (s ++ '|' :: (r ++ '|' :: (ts ++ '|' :: (c ++ ['\n'])))))
      = true := by
    simpa using hv
  rw [parse_message]
  rw [if_neg hraw_ne, if_neg (by simp [hv2])]
  simp only [hstrip, h0]
  rw [if_neg (by simp [FIELD_COUNT])]
  simp only [merge_fields]
  rw [unescape_field_no_backslash hs2, unescape_field_no_backslash hr2,
    unescape_field_no_backslash hts2, unescape_field_no_backslash hc, hty]
  rw [if_neg htne, if_neg (by simp [hvt])]

/-- Witness for C4: the frame `MSG|alice|bob|ts|a|b|c` carries six unescaped
separators; parse succeeds, splits at the first four only, and the two extra
`|` stay inside CONTENT (`a|b|c`, within the capacity). -/
theorem C4_parse_extra_delims_witness :
    parse_message 100 (str "now")
        (str "MSG" ++ '|' :: str "alice" ++ '|' :: str "bob" ++
         '|' :: str "ts" ++ '|' :: str "a|b|c" ++ ['\n'])
      = some { type := str "MSG", sender := (str "alice").take 31,
               receiver := (str "bob").take 31,
               timestamp := if (str "ts").take 31 = []
                            then str "now" else (str "ts").take 31,
               content := (str "a|b|c").take 255, message_id := 100,
               is_delivered := false } :=
  C4_parse_extra_delims 100 (str "now") (str "MSG") (str "alice") (str "bob")
    (str "ts") (str "a|b|c") (by decide) (by decide) (by decide) (by decide)
    (by decide) (by decide) (by decide) (by decide) (by decide)

/-- The 273-byte frame whose CONTENT exceeds the 255-character field
capacity: `MSG|a|b|c|` followed by 260 `x` and `|y`. -/
def c4raw : List Char :=
  str "MSG|a|b|c|" ++ List.replicate 260 'x' ++ str "|y" ++ ['\n']

set_option maxRecDepth 100000 in
/-- Counterexample to C4 as stated: `c4raw` is a valid frame with five
unescaped separators (more than four), parse succeeds — but the fifth `|`
and the text around it do NOT remain inside CONTENT: the merged content is
truncated to the 255-character field capacity by `safe_strcpy`, so the record
contains 255 `x` and no `|` at all. -/
theorem C4_counterexample :
    validate_message c4raw = true ∧
    count_unescaped_delims c4raw 0 = 5 ∧
    parse_message 100 (str "now") c4raw
      = some { type := str "MSG", sender := str "a", receiver := str "b",
               timestamp := str "c", content := List.replicate 255 'x',
               message_id := 100, is_delivered := false } ∧
    '|' ∉ List.replicate 255 'x' := by
  refine ⟨by decide, by decide, by decide, by decide⟩
